import Mathlib

/-!
AlphaHunter real-time synchronization engine: a shallow embedding.

This file embeds the message-routing core of the AlphaHunter frontend in
Lean 4 and proves the specification's claims about it.

Two source revisions exist:

* `src/frontend/src/views/HomeView.vue` ("V4.5/V5.0"): `socket.onmessage`
  parses the payload as JSON, routes on the `type` discriminator
  (`REALTIME_UPDATE` / `STRATEGIC_UPDATE`), and replaces state slices.
  Any exception inside the handler is caught (`try`/`catch`), leaving the
  state as it was at the point of the throw.
* `src/unnamed/part_000` ("V4.0"): `ws.onmessage` reads `new_opportunities`
  and `sell_alerts` from the TOP LEVEL of the parsed message and
  prepend-merges sell alerts onto the stored history.

JavaScript dynamic values are modelled by the inductive type `Json`
(with an extra `undefined` constructor for the JavaScript `undefined` value,
which property access on an object produces for a missing key).  Property
access on `null`/`undefined` throws a `TypeError`; this is modelled with
`Except Unit`.  `x || []` is modelled by JS truthiness.  State slices are
`Json` values, since TypeScript types are erased at runtime.
-/

namespace AlphaHunter

/-- JavaScript values as they appear after `JSON.parse`, plus `undefined` for
the JavaScript `undefined` value produced by missing-property access.
Numbers are modelled as rationals; the router performs no arithmetic on
them, so only their identity matters. -/
inductive Json where
  | null : Json
  | undefined : Json
  | bool (b : Bool) : Json
  | num (q : Rat) : Json
  | str (s : String) : Json
  | arr (elems : List Json) : Json
  | obj (fields : List (String × Json)) : Json

/-- JS truthiness: `null`, `undefined`, `false`, `0`, and `""` are falsy;
every object and array (including the empty ones) is truthy. -/
def Json.truthy : Json → Bool
  | .null => false
  | .undefined => false
  | .bool b => b
  | .num q => q ≠ 0
  | .str s => s ≠ ""
  | .arr _ => true
  | .obj _ => true

/-- `v === "s"` for a string literal `"s"`: true exactly when `v` is that
string (strict equality does no coercion). -/
def Json.isStr (j : Json) (s : String) : Bool :=
  match j with
  | .str t => t == s
  | _ => false

/-- JavaScript property access `v[k]`: throws a `TypeError` on `null` and
`undefined`, looks the key up on an object (missing key gives `undefined`),
and gives `undefined` on every other primitive or array (the router only
accesses named fields, never `length`, through this function). -/
def jsGet (j : Json) (k : String) : Except Unit Json :=
  match j with
  | .null => .error ()
  | .undefined => .error ()
  | .obj fields => .ok ((fields.lookup k).getD .undefined)
  | _ => .ok .undefined

/-- `v.length` as used in `data.sell_alerts.length`: defined (a number) for
arrays and strings, `undefined` otherwise.  The caller only compares it
with `> 0`, so it is returned as an `Option Nat` (`none` = `undefined`,
and `undefined > 0` is `false` in JS). -/
def jsLen : Json → Option Nat
  | .arr elems => some elems.length
  | .str s => some s.length
  | _ => none

/-- The reactive state of the V4.5 `HomeView.vue` component: connection
status (the literal strings the source assigns), the three feed slices
(dynamically typed, hence `Json`), the UI-local selection, and the active
tab. -/
structure HState where
  connectionStatus : String
  opportunities : Json
  sellAlerts : Json
  strategicOpportunities : Json
  selectedTicker : Option String
  activeTab : String

/-- The initial V4.5 state: slices start empty, status `'正在连接...'`
(connecting), nothing selected, realtime tab active. -/
def initState : HState :=
  { connectionStatus := "正在连接..."
    opportunities := .arr []
    sellAlerts := .arr []
    strategicOpportunities := .arr []
    selectedTicker := none
    activeTab := "realtime" }

/-- `message.data.f || []` as evaluated inside the V4.5 handler: access
`data` on the message, access `f` on the result (either access may throw),
then apply `|| []`. -/
def readDataField (message : Json) (f : String) : Except Unit Json := do
  let d ← jsGet message "data"
  let v ← jsGet d f
  pure (if v.truthy then v else .arr [])

/-- The body of `socket.onmessage` in `HomeView.vue` after `JSON.parse`
succeeded, with the surrounding `try`/`catch`: statements run in source
order, and a thrown `TypeError` is caught, leaving the state as it was at
the throw (assignments already executed persist).

```
if (message.type === 'REALTIME_UPDATE') {
  opportunities.value = message.data.new_opportunities || []
  sellAlerts.value = message.data.sell_alerts || []
} else if (message.type === 'STRATEGIC_UPDATE') {
  strategicOpportunities.value = message.data || [];
}
``` -/
def route (message : Json) (st : HState) : HState :=
  match jsGet message "type" with
  | .error _ => st
  | .ok ty =>
    if ty.isStr "REALTIME_UPDATE" then
      match readDataField message "new_opportunities" with
      | .error _ => st
      | .ok no =>
        let st1 := { st with opportunities := no }
        match readDataField message "sell_alerts" with
        | .error _ => st1
        | .ok sa => { st1 with sellAlerts := sa }
    else if ty.isStr "STRATEGIC_UPDATE" then
      match jsGet message "data" with
      | .error _ => st
      | .ok d =>
        { st with strategicOpportunities := if d.truthy then d else .arr [] }
    else st

/-- `socket.onmessage` in `HomeView.vue`: `JSON.parse` of the raw payload
(`none` models a parse failure, i.e. `JSON.parse` threw) followed by the
routing body; the `catch` swallows the parse failure, leaving state
untouched. -/
def onmessage (parsed : Option Json) (st : HState) : HState :=
  match parsed with
  | none => st
  | some message => route message st

/-- `socket.onclose` in `HomeView.vue`: sets the status string to
`'连接已断开'` (disconnected) and touches nothing else. -/
def onclose (st : HState) : HState :=
  { st with connectionStatus := "连接已断开" }

/-- `toggleRow` in `HomeView.vue` (and the identical `toggleAccordion`):
clicking the already-selected ticker collapses it, otherwise the clicked
ticker becomes the unique selection. -/
def toggleRow (st : HState) (ticker : String) : HState :=
  if st.selectedTicker = some ticker then
    { st with selectedTicker := none }
  else
    { st with selectedTicker := some ticker }

/-- The reactive state of the V4.0 component (`src/unnamed/part_000`):
no strategic slice and no tabs yet. -/
structure V4State where
  connectionStatus : String
  opportunities : Json
  sellAlerts : Json
  selectedTicker : Option String

/-- The initial V4.0 state: empty slices, connecting status, nothing
selected. -/
def initV4State : V4State :=
  { connectionStatus := "正在连接..."
    opportunities := .arr []
    sellAlerts := .arr []
    selectedTicker := none }

/-- The body of `ws.onmessage` in the V4.0 revision after `JSON.parse`
succeeded (the parsed message is called `data` in the source):

```
if (data.new_opportunities) {
  opportunities.value = data.new_opportunities
}
if (data.sell_alerts && data.sell_alerts.length > 0) {
  sellAlerts.value = [...data.sell_alerts, ...sellAlerts.value];
}
```

Spreading a non-array (`[...x, ...]`) throws; the `catch` keeps the state
reached at that point. -/
def routeV4 (data : Json) (st : V4State) : V4State :=
  match jsGet data "new_opportunities" with
  | .error _ => st
  | .ok no =>
    let st1 := if no.truthy then { st with opportunities := no } else st
    match jsGet data "sell_alerts" with
    | .error _ => st1
    | .ok sa =>
      if sa.truthy && (match jsLen sa with | some n => decide (0 < n) | none => false) then
        match sa, st1.sellAlerts with
        | .arr fresh, .arr old => { st1 with sellAlerts := .arr (fresh ++ old) }
        | _, _ => st1
      else st1

/-- `ws.onmessage` in the V4.0 revision, `JSON.parse` included. -/
def onmessageV4 (parsed : Option Json) (st : V4State) : V4State :=
  match parsed with
  | none => st
  | some data => routeV4 data st

/-! Helper lemmas. -/

theorem Json.truthy_arr (elems : List Json) : (Json.arr elems).truthy = true :=
  rfl

/-- No branch of the V4.5 routing body writes to `selectedTicker`. -/
theorem route_preserves_selection (m : Json) (st : HState) :
    (route m st).selectedTicker = st.selectedTicker := by
  unfold route
  repeat' split
  all_goals rfl

/-- The `REALTIME_UPDATE` branch never writes the strategic slice. -/
theorem route_realtime_keeps_strategic (m : Json) (st : HState)
    (hty : jsGet m "type" = .ok (Json.str "REALTIME_UPDATE")) :
    (route m st).strategicOpportunities = st.strategicOpportunities := by
  rcases h1 : readDataField m "new_opportunities" with e1 | no
  · simp [route, hty, h1, Json.isStr]
  · rcases h2 : readDataField m "sell_alerts" with e2 | sa <;>
      simp [route, hty, h1, h2, Json.isStr]

/-- The `STRATEGIC_UPDATE` branch never writes the tactical or sell-alert
slices. -/
theorem route_strategic_keeps_tactical (m : Json) (st : HState)
    (hty : jsGet m "type" = .ok (Json.str "STRATEGIC_UPDATE")) :
    (route m st).opportunities = st.opportunities ∧
    (route m st).sellAlerts = st.sellAlerts := by
  rcases h1 : jsGet m "data" with e1 | d <;>
    simp [route, hty, h1, Json.isStr]

/-- The V4.0 sell-alert phase: with `sell_alerts` an array and an array
stored, the result is the prepend-merge (a no-op when nothing arrived). -/
theorem routeV4_sellAlerts (gfields : List (String × Json))
    (fresh old : List Json) (st4 : V4State)
    (hsa : gfields.lookup "sell_alerts" = some (Json.arr fresh))
    (hold : st4.sellAlerts = Json.arr old) :
    (routeV4 (Json.obj gfields) st4).sellAlerts = Json.arr (fresh ++ old) := by
  cases h1 : ((gfields.lookup "new_opportunities").getD Json.undefined).truthy <;>
    cases fresh <;>
    simp [routeV4, jsGet, hsa, h1, hold, Json.truthy_arr, jsLen]

/-! The claims, one theorem each. -/

/-- C6: the selection toggle collapses the already-selected ticker back to
"none selected" and otherwise selects exactly the clicked ticker; since the
selection is a single `Option String`, at most one ticker is ever selected
at a time. -/
theorem toggleRow_toggles_selection (st : HState) (t : String) :
    (toggleRow st t).selectedTicker =
      (if st.selectedTicker = some t then none else some t) := by
  unfold toggleRow
  split <;> simp_all

/-- C7: a transport close event only changes the connection status, to the
disconnected string `'连接已断开'`; the three feed slices and the selection
state are exactly as before the close. -/
theorem onclose_only_changes_status (st : HState) :
    (onclose st).connectionStatus = "连接已断开" ∧
    (onclose st).opportunities = st.opportunities ∧
    (onclose st).sellAlerts = st.sellAlerts ∧
    (onclose st).strategicOpportunities = st.strategicOpportunities ∧
    (onclose st).selectedTicker = st.selectedTicker := by
  simp [onclose]

/-- C1: a well-formed `REALTIME_UPDATE` message (object with the
discriminator and an object `data` payload) replaces the tactical slice
with exactly `data.new_opportunities` when that field is an array, and with
the empty array when the field is absent; the prior snapshot is discarded
either way. -/
theorem realtime_update_replaces_tactical_slice
    (fields dfields : List (String × Json)) (xs : List Json) (st : HState)
    (hty : fields.lookup "type" = some (Json.str "REALTIME_UPDATE"))
    (hdata : fields.lookup "data" = some (Json.obj dfields)) :
    (dfields.lookup "new_opportunities" = some (Json.arr xs) →
      (route (Json.obj fields) st).opportunities = Json.arr xs) ∧
    (dfields.lookup "new_opportunities" = none →
      (route (Json.obj fields) st).opportunities = Json.arr []) := by
  constructor <;> intro h <;>
    simp [route, readDataField, jsGet, hty, hdata, h, Json.isStr, Json.truthy,
      bind, Except.bind, pure, Except.pure]

theorem realtime_update_replaces_tactical_slice_witness :
    (route (Json.obj [("type", Json.str "REALTIME_UPDATE"),
        ("data", Json.obj [("new_opportunities",
          Json.arr [Json.str "000001"])])]) initState).opportunities =
      Json.arr [Json.str "000001"] :=
  (realtime_update_replaces_tactical_slice
    [("type", Json.str "REALTIME_UPDATE"),
     ("data", Json.obj [("new_opportunities", Json.arr [Json.str "000001"])])]
    [("new_opportunities", Json.arr [Json.str "000001"])]
    [Json.str "000001"] initState rfl rfl).1 rfl

/-- C4: a well-formed envelope whose string discriminator is neither
`REALTIME_UPDATE` nor `STRATEGIC_UPDATE` leaves the whole state (all four
slices) unchanged; no error escapes the handler. -/
theorem unknown_discriminator_is_noop
    (fields : List (String × Json)) (s : String) (st : HState)
    (hty : fields.lookup "type" = some (Json.str s))
    (h1 : s ≠ "REALTIME_UPDATE") (h2 : s ≠ "STRATEGIC_UPDATE") :
    route (Json.obj fields) st = st := by
  simp [route, jsGet, hty, Json.isStr, h1, h2]

theorem unknown_discriminator_is_noop_witness :
    route (Json.obj [("type", Json.str "HEARTBEAT")]) initState = initState :=
  unknown_discriminator_is_noop _ "HEARTBEAT" initState rfl
    (by decide) (by decide)

/-- C3: a malformed raw payload is dropped with the whole state unchanged:
a `JSON.parse` failure is caught leaving every slice as it was, and a
parsed object lacking the `type` discriminator falls through both routing
branches, again leaving every slice (tactical, sell alerts, strategic,
selection) exactly equal to its pre-message value.  `route` is a total
function, so the failure never escapes the handler. -/
theorem malformed_payload_leaves_state_unchanged
    (m : Json) (st : HState)
    (hm : jsGet m "type" = .error () ∨ jsGet m "type" = .ok Json.undefined) :
    onmessage none st = st ∧
    onmessage (some m) st = st := by
  refine ⟨rfl, ?_⟩
  rcases hm with hm | hm <;> simp [onmessage, route, hm, Json.isStr]

theorem malformed_payload_leaves_state_unchanged_witness :
    onmessage none initState = initState ∧
    onmessage (some (Json.obj [("foo", Json.num 1)])) initState = initState :=
  malformed_payload_leaves_state_unchanged (Json.obj [("foo", Json.num 1)])
    initState (Or.inr rfl)

/-- C8: routing only mutates the slices addressed by the discriminator and
never the UI selection: no message of any shape changes `selectedTicker`, a
`REALTIME_UPDATE` leaves the strategic slice unchanged, and a
`STRATEGIC_UPDATE` leaves the tactical and sell-alert slices unchanged. -/
theorem route_frame_conditions (m : Json) (st : HState) :
    (route m st).selectedTicker = st.selectedTicker ∧
    (jsGet m "type" = .ok (Json.str "REALTIME_UPDATE") →
      (route m st).strategicOpportunities = st.strategicOpportunities) ∧
    (jsGet m "type" = .ok (Json.str "STRATEGIC_UPDATE") →
      (route m st).opportunities = st.opportunities ∧
        (route m st).sellAlerts = st.sellAlerts) :=
  ⟨route_preserves_selection m st,
   fun hty => route_realtime_keeps_strategic m st hty,
   fun hty => route_strategic_keeps_tactical m st hty⟩

theorem route_frame_conditions_witness :
    (route (Json.obj [("type", Json.str "STRATEGIC_UPDATE"),
        ("data", Json.arr [Json.str "600519"])]) initState).selectedTicker =
      initState.selectedTicker ∧
    (route (Json.obj [("type", Json.str "STRATEGIC_UPDATE"),
        ("data", Json.arr [Json.str "600519"])]) initState).opportunities =
      initState.opportunities :=
  ⟨(route_frame_conditions (Json.obj [("type", Json.str "STRATEGIC_UPDATE"),
      ("data", Json.arr [Json.str "600519"])]) initState).1,
   ((route_frame_conditions (Json.obj [("type", Json.str "STRATEGIC_UPDATE"),
      ("data", Json.arr [Json.str "600519"])]) initState).2.2 rfl).1⟩

/-- C9: with the `type` discriminator present but `data` absent or `null`,
the current revision is asymmetric: a `REALTIME_UPDATE` throws on the
field access `message.data.new_opportunities`, the exception is caught, and
the whole state is unchanged (atomic drop); a `STRATEGIC_UPDATE` evaluates
`message.data || []` to `[]` and resets the strategic slice to the empty
array instead of dropping the message. -/
theorem missing_data_asymmetry
    (fields gfields : List (String × Json)) (st : HState)
    (hr : fields.lookup "type" = some (Json.str "REALTIME_UPDATE"))
    (hrd : fields.lookup "data" = none ∨ fields.lookup "data" = some Json.null)
    (hs : gfields.lookup "type" = some (Json.str "STRATEGIC_UPDATE"))
    (hsd : gfields.lookup "data" = none ∨ gfields.lookup "data" = some Json.null) :
    route (Json.obj fields) st = st ∧
    route (Json.obj gfields) st =
      { st with strategicOpportunities := Json.arr [] } := by
  constructor
  · rcases hrd with hrd | hrd <;>
      simp [route, readDataField, jsGet, hr, hrd, Json.isStr, bind, Except.bind]
  · rcases hsd with hsd | hsd <;>
      simp [route, jsGet, hs, hsd, Json.isStr, Json.truthy]

theorem missing_data_asymmetry_witness :
    route (Json.obj [("type", Json.str "REALTIME_UPDATE")]) initState =
      initState ∧
    route (Json.obj [("type", Json.str "STRATEGIC_UPDATE"),
        ("data", Json.null)]) initState =
      { initState with strategicOpportunities := Json.arr [] } :=
  missing_data_asymmetry [("type", Json.str "REALTIME_UPDATE")]
    [("type", Json.str "STRATEGIC_UPDATE"), ("data", Json.null)] initState
    rfl (Or.inl rfl) rfl (Or.inr rfl)

/-- C5: the sell-alert slice follows the deployed policy variant.  In the
V4.5 revision (replace wholesale) a well-formed `REALTIME_UPDATE` makes the
slice exactly `data.sell_alerts` (empty array when absent).  In the V4.0
revision (prepend) the newly arrived alerts are prepended, in order, onto
the entire stored history, with no prior alert removed and no length
bound. -/
theorem sell_alert_policy_variants
    (fields dfields v4fields : List (String × Json))
    (ys fresh old : List Json) (st : HState) (st4 : V4State)
    (hty : fields.lookup "type" = some (Json.str "REALTIME_UPDATE"))
    (hdata : fields.lookup "data" = some (Json.obj dfields))
    (hsa4 : v4fields.lookup "sell_alerts" = some (Json.arr fresh))
    (hold : st4.sellAlerts = Json.arr old) :
    (dfields.lookup "sell_alerts" = some (Json.arr ys) →
      (route (Json.obj fields) st).sellAlerts = Json.arr ys) ∧
    (dfields.lookup "sell_alerts" = none →
      (route (Json.obj fields) st).sellAlerts = Json.arr []) ∧
    (routeV4 (Json.obj v4fields) st4).sellAlerts = Json.arr (fresh ++ old) := by
  refine ⟨?_, ?_, ?_⟩
  · intro h
    simp [route, readDataField, jsGet, hty, hdata, h, Json.isStr, Json.truthy,
      bind, Except.bind, pure, Except.pure]
  · intro h
    simp [route, readDataField, jsGet, hty, hdata, h, Json.isStr, Json.truthy,
      bind, Except.bind, pure, Except.pure]
  · exact routeV4_sellAlerts v4fields fresh old st4 hsa4 hold

theorem sell_alert_policy_variants_witness :
    (route (Json.obj [("type", Json.str "REALTIME_UPDATE"),
        ("data", Json.obj [("sell_alerts", Json.arr [Json.str "A"])])])
      initState).sellAlerts = Json.arr [Json.str "A"] ∧
    (routeV4 (Json.obj [("sell_alerts", Json.arr [Json.str "B"])])
      { connectionStatus := "连接成功！", opportunities := Json.arr []
        sellAlerts := Json.arr [Json.str "C"]
        selectedTicker := none }).sellAlerts =
      Json.arr ([Json.str "B"] ++ [Json.str "C"]) := by
  have h := sell_alert_policy_variants
    [("type", Json.str "REALTIME_UPDATE"),
     ("data", Json.obj [("sell_alerts", Json.arr [Json.str "A"])])]
    [("sell_alerts", Json.arr [Json.str "A"])]
    [("sell_alerts", Json.arr [Json.str "B"])]
    [Json.str "A"] [Json.str "B"] [Json.str "C"] initState
    { connectionStatus := "连接成功！", opportunities := Json.arr []
      sellAlerts := Json.arr [Json.str "C"]
      selectedTicker := none }
    rfl rfl rfl rfl
  exact ⟨h.1 rfl, h.2.2⟩

/-- C10: the V4.0 handler reads `new_opportunities` and `sell_alerts` from
the TOP LEVEL of the parsed message, so a message in the documented
envelope form `{"type": ..., "data": {...}}` changes nothing at all in
that revision; moreover a top-level `sell_alerts` that is present but an
empty list fails the `length > 0` guard and leaves the sell-alert slice
unchanged. -/
theorem v4_ignores_envelope_form (t d : Json) (st4 st4b : V4State)
    (gfields : List (String × Json))
    (hsa : gfields.lookup "sell_alerts" = some (Json.arr [])) :
    routeV4 (Json.obj [("type", t), ("data", d)]) st4 = st4 ∧
    (routeV4 (Json.obj gfields) st4b).sellAlerts = st4b.sellAlerts := by
  constructor
  · have h1 : List.lookup "new_opportunities" [("type", t), ("data", d)] = none :=
      rfl
    have h2 : List.lookup "sell_alerts" [("type", t), ("data", d)] = none := rfl
    simp [routeV4, jsGet, h1, h2, Json.truthy, jsLen]
  · cases h1 : ((gfields.lookup "new_opportunities").getD Json.undefined).truthy <;>
      simp [routeV4, jsGet, hsa, h1, Json.truthy_arr, jsLen]

theorem v4_ignores_envelope_form_witness :
    routeV4 (Json.obj [("type", Json.str "REALTIME_UPDATE"),
        ("data", Json.obj [("new_opportunities", Json.arr [Json.str "X"])])])
      initV4State = initV4State ∧
    (routeV4 (Json.obj [("sell_alerts", Json.arr [])])
      initV4State).sellAlerts = initV4State.sellAlerts :=
  v4_ignores_envelope_form (Json.str "REALTIME_UPDATE")
    (Json.obj [("new_opportunities", Json.arr [Json.str "X"])])
    initV4State initV4State [("sell_alerts", Json.arr [])] rfl

/-- A legacy-shaped `STRATEGIC_UPDATE` message: `data` is an object
wrapping the snapshot array in a `strategic_opportunities` field, as in the
older strategic payload shape the spec describes. -/
def legacyStrategicMsg : Json :=
  Json.obj [("type", Json.str "STRATEGIC_UPDATE"),
    ("data", Json.obj [("strategic_opportunities",
      Json.arr [Json.obj [("ticker", Json.str "600519"),
                          ("strategy_name", Json.str "BOX_BREAKOUT")]])])]

/-- C2 counterexample: on the legacy payload shape the handler stores the
wrapping `data` object itself; the strategic slice does NOT equal
`data.strategic_opportunities`, so no field-presence probing happens and
the claim as stated fails. -/
theorem strategic_legacy_shape_not_unwrapped :
    (route legacyStrategicMsg initState).strategicOpportunities ≠
      Json.arr [Json.obj [("ticker", Json.str "600519"),
                          ("strategy_name", Json.str "BOX_BREAKOUT")]] := by
  intro h
  have key : (route legacyStrategicMsg initState).strategicOpportunities =
      Json.obj [("strategic_opportunities",
        Json.arr [Json.obj [("ticker", Json.str "600519"),
                            ("strategy_name", Json.str "BOX_BREAKOUT")]])] := rfl
  rw [key] at h
  exact nomatch h

/-- C2 amended: for every `STRATEGIC_UPDATE` envelope with a `data` field,
the strategic slice afterwards equals exactly `data` whenever `data` is
truthy — the legacy wrapping object included, stored as-is with no probing
of field presence — and equals the empty array when `data` is `null` or
otherwise falsy.  Replacement is wholesale, so nothing from the previous
snapshot survives unless re-sent. -/
theorem strategic_update_stores_data_unprobed
    (fields : List (String × Json)) (d : Json) (st : HState)
    (hty : fields.lookup "type" = some (Json.str "STRATEGIC_UPDATE"))
    (hdata : fields.lookup "data" = some d) :
    (route (Json.obj fields) st).strategicOpportunities =
      (if d.truthy then d else Json.arr []) := by
  simp [route, jsGet, hty, hdata, Json.isStr]

theorem strategic_update_stores_data_unprobed_witness :
    (route (Json.obj [("type", Json.str "STRATEGIC_UPDATE"),
        ("data", Json.arr [Json.str "600519"])]) initState).strategicOpportunities =
      (if (Json.arr [Json.str "600519"]).truthy then Json.arr [Json.str "600519"]
       else Json.arr []) :=
  strategic_update_stores_data_unprobed
    [("type", Json.str "STRATEGIC_UPDATE"),
     ("data", Json.arr [Json.str "600519"])]
    (Json.arr [Json.str "600519"]) initState rfl rfl

end AlphaHunter
